import Mathlib

/-!
Verification development for the onboard ROV controller (remote).

The JavaScript source is shallowly embedded below: JS numbers are modelled
as rationals, partial objects as structures of Option fields, the PWM
driver as a recorded list of channel writes, and the single TCP session as
an Option-valued connection whose writes are recorded.  A thrown JS
exception inside a handler is modelled by a Bool flag (threw) together
with the mutations that had already happened before the throwing statement.
-/

namespace Remote

/-! ## Actuator mixing engine (calcMotorValues and friends) -/

/-- row.reduce((sum, dir, index) =&gt; sum + dir * data[index], 0).
The model assumes the data vector is at least as long as the row, as the
spec requires (a shorter vector would give NaN in JS, outside this model);
missing entries contribute 0. -/
def rowDot : List ℚ → List ℚ → ℚ
  | [], _ => 0
  | _ :: _, [] => 0
  | dir :: row, x :: rest => dir * x + rowDot row rest

/-- rawValues from calcMotorValues: matrix.map(row =&gt; row.reduce(..., 0)). -/
def rawValues (data : List ℚ) (matrix : List (List ℚ)) : List ℚ :=
  matrix.map (fun row => rowDot row data)

/-- rawValues.reduce((accum, val) =&gt; Math.abs(val) &gt; accum ? Math.abs(val) : accum, 1). -/
def maxAbsScale (l : List ℚ) : ℚ :=
  l.foldl (fun accum val => if |val| > accum then |val| else accum) 1

/-- calcMotorValues(data, matrix, diff = 400, mid = 1550): each raw channel
sum is divided by the running maximum of 1 and the absolute raw values,
scaled by diff and recentred at mid. -/
def calcMotorValues (data : List ℚ) (matrix : List (List ℚ)) (diff mid : ℚ) : List ℚ :=
  (rawValues data matrix).map (fun element =>
    element / maxAbsScale (rawValues data matrix) * diff + mid)

/-- calcMotorValue(data, diff = 400, mid = 1550): the body is
calcMotorValues([[data]], [[1]])[0].  The diff and mid parameters are
accepted but not forwarded: the inner call always uses the defaults
400 and 1550.  (In JS the nested [[data]] collapses back to a number via
the 1 * [data] coercion, so the call behaves as calcMotorValues([data], [[1]]).) -/
def calcMotorValue (data : ℚ) (diff mid : ℚ) : ℚ :=
  (calcMotorValues [data] [[1]] 400 1550).getD 0 0

/-- vectorMapMatrix: rows LF, RF, LB, RB; columns F/B, Turn, Strafe. -/
def vectorMapMatrix : List (List ℚ) :=
  [[1, 1, 1], [1, -1, -1], [1, 1, -1], [1, -1, 1]]

/-- depthMapMatrix: rows F, B; columns Pitch, Depth. -/
def depthMapMatrix : List (List ℚ) :=
  [[1, -1], [-1, -1]]

/-- motorChannelGroups.vector = [LF, RF, LB, RB] = [8, 1, 9, 2]. -/
def motorChannelGroups_vector : List Nat := [8, 1, 9, 2]

/-- motorChannelGroups.depth = [F, B] = [3, 11]. -/
def motorChannelGroups_depth : List Nat := [3, 11]

/-- motorChannels.manip. -/
def motorChannels_manip : Nat := 0

/-- motorChannels.picam. -/
def motorChannels_picam : Nat := 10

/-- motorChannels.leveler. -/
def motorChannels_leveler : Nat := 7

/-! ## Helper lemmas about the normalising fold -/

theorem le_foldl_absmax (l : List ℚ) :
    ∀ a : ℚ, a ≤ l.foldl (fun accum val => if |val| > accum then |val| else accum) a := by
  induction l with
  | nil => intro a; exact le_refl a
  | cons v t ih =>
      intro a
      rw [List.foldl_cons]
      have h1 : a ≤ (if |v| > a then |v| else a) := by
        by_cases h : |v| > a
        · rw [if_pos h]; exact le_of_lt h
        · rw [if_neg h]
      exact le_trans h1 (ih _)

theorem mem_le_foldl_absmax (l : List ℚ) :
    ∀ (a e : ℚ), e ∈ l →
      |e| ≤ l.foldl (fun accum val => if |val| > accum then |val| else accum) a := by
  induction l with
  | nil => intro a e h; exact absurd h (List.not_mem_nil e)
  | cons v t ih =>
      intro a e h
      rw [List.foldl_cons]
      rcases List.mem_cons.mp h with rfl | h2
      · have h3 : |e| ≤ (if |e| > a then |e| else a) := by
          by_cases hc : |e| > a
          · rw [if_pos hc]
          · rw [if_neg hc]; exact le_of_not_lt hc
        exact le_trans h3 (le_foldl_absmax t _)
      · exact ih _ e h2

theorem one_le_maxAbsScale (l : List ℚ) : 1 ≤ maxAbsScale l :=
  le_foldl_absmax l 1

theorem abs_le_maxAbsScale {l : List ℚ} {e : ℚ} (h : e ∈ l) : |e| ≤ maxAbsScale l :=
  mem_le_foldl_absmax l 1 e h

theorem maxAbsScale_of_le_one : ∀ l : List ℚ, (∀ r ∈ l, |r| ≤ 1) → maxAbsScale l = 1 := by
  intro l
  unfold maxAbsScale
  induction l with
  | nil => intro _; rfl
  | cons v t ih =>
      intro h
      rw [List.foldl_cons]
      have hv : ¬ (|v| > 1) := not_lt.mpr (h v (List.mem_cons_self v t))
      rw [if_neg hv]
      exact ih (fun r hr => h r (List.mem_cons_of_mem v hr))

/-! ## Claim theorems for the pure mixing engine -/

/-- C1: for every DOF value vector and every mixing matrix, each pulse
width produced by calcMotorValues with half-range diff and center mid lies
within the closed interval from mid - diff to mid + diff. -/
theorem c1_pulse_width_range (data : List ℚ) (matrix : List (List ℚ)) (diff mid : ℚ)
    (hd : 0 ≤ diff) :
    ∀ w ∈ calcMotorValues data matrix diff mid, mid - diff ≤ w ∧ w ≤ mid + diff := by
  intro w hw
  unfold calcMotorValues at hw
  rcases List.mem_map.mp hw with ⟨e, he, rfl⟩
  have h1 : (1 : ℚ) ≤ maxAbsScale (rawValues data matrix) := one_le_maxAbsScale _
  have hS : (0 : ℚ) < maxAbsScale (rawValues data matrix) := lt_of_lt_of_le one_pos h1
  have he2 : |e| ≤ maxAbsScale (rawValues data matrix) := abs_le_maxAbsScale he
  have h3 : |e / maxAbsScale (rawValues data matrix)| ≤ 1 := by
    rw [abs_div, abs_of_pos hS]
    exact (div_le_one hS).mpr he2
  have h4 : |e / maxAbsScale (rawValues data matrix) * diff| ≤ diff := by
    rw [abs_mul, abs_of_nonneg hd]
    have h5 := mul_le_mul_of_nonneg_right h3 hd
    simpa using h5
  have h6 := abs_le.mp h4
  constructor
  · linarith [h6.1]
  · linarith [h6.2]

/-- C1 witness: the forward-only command through the thrust-vector matrix
produces 1950, which the range theorem bounds inside [1150, 1950]. -/
theorem c1_pulse_width_range_witness :
    (0 : ℚ) ≤ 400 ∧ ((1550 : ℚ) - 400 ≤ 1950 ∧ (1950 : ℚ) ≤ 1550 + 400) :=
  ⟨by norm_num,
   c1_pulse_width_range [1, 0, 0] vectorMapMatrix 400 1550 (by norm_num) 1950
     (by norm_num [calcMotorValues, rawValues, rowDot, maxAbsScale, vectorMapMatrix])⟩

/-- C2: when every raw channel sum has magnitude at most 1, mixing is
exactly linear: each output equals mid + r * diff. -/
theorem c2_linear_when_unsaturated (data : List ℚ) (matrix : List (List ℚ)) (diff mid : ℚ)
    (h : ∀ r ∈ rawValues data matrix, |r| ≤ 1) :
    calcMotorValues data matrix diff mid = (rawValues data matrix).map (fun r => mid + r * diff) := by
  unfold calcMotorValues
  rw [maxAbsScale_of_le_one _ h]
  have hfun : (fun element : ℚ => element / 1 * diff + mid) = (fun r : ℚ => mid + r * diff) := by
    funext e
    rw [div_one]
    ring
  rw [hfun]

/-- C2 witness: the DOF vector FB = 1, turn = 0, strafe = 0 through the
thrust-vector matrix has all raw sums of magnitude 1, and with mid = 1550
and diff = 400 all four channels come out at 1950. -/
theorem c2_linear_when_unsaturated_witness :
    (∀ r ∈ rawValues [1, 0, 0] vectorMapMatrix, |r| ≤ 1) ∧
      calcMotorValues [1, 0, 0] vectorMapMatrix 400 1550 = [1950, 1950, 1950, 1950] :=
  ⟨by norm_num [rawValues, rowDot, vectorMapMatrix],
   (c2_linear_when_unsaturated [1, 0, 0] vectorMapMatrix 400 1550
      (by norm_num [rawValues, rowDot, vectorMapMatrix])).trans
     (by norm_num [rawValues, rowDot, vectorMapMatrix])⟩

/-! ## Protocol data model and mutable server state -/

/-- responseTypes.MOTORDATA from nugget-comms: the well-known transactionID
used for internally sourced motor telemetry.  Only its identity matters here. -/
def responseTypes_MOTORDATA : String := "MOTORDATA"

/-- Retained DOF state: the oldDOFValues object, all axes initialised to 0. -/
structure DOFState where
  FB : ℚ
  turn : ℚ
  strafe : ℚ
  pitch : ℚ
  depth : ℚ
  manip : ℚ
  leveler : ℚ
  picam : ℚ
deriving DecidableEq

/-- An incoming DOF update (token body): a key is present iff the Option is
some, mirroring hasOwnProperty on the JS object. -/
structure DOFUpdate where
  FB : Option ℚ := none
  turn : Option ℚ := none
  strafe : Option ℚ := none
  pitch : Option ℚ := none
  depth : Option ℚ := none
  manip : Option ℚ := none
  leveler : Option ℚ := none
  picam : Option ℚ := none
deriving DecidableEq

/-- Object.assign(oldDOFValues, DOFValues): keys present in the update
overwrite the retained value, absent keys are untouched. -/
def mergeDOF (old : DOFState) (u : DOFUpdate) : DOFState where
  FB := u.FB.getD old.FB
  turn := u.turn.getD old.turn
  strafe := u.strafe.getD old.strafe
  pitch := u.pitch.getD old.pitch
  depth := u.depth.getD old.depth
  manip := u.manip.getD old.manip
  leveler := u.leveler.getD old.leveler
  picam := u.picam.getD old.picam

/-- The motorValues object placed in the body of the setMotors response.
The depth entries are none because the JS map callback for the depth group
has a block body without a return value, so it yields undefined. -/
structure MotorValuesBody where
  vector : Option (List ℚ) := none
  depth : Option (List (Option ℚ)) := none
  manip : Option ℚ := none
  picam : Option ℚ := none
  leveler : Option ℚ := none
deriving DecidableEq

/-- The body of an outbound responseToken. -/
inductive RespBody where
  | empty : RespBody
  | motors (m : MotorValuesBody) : RespBody
  | gains (zKp zKi zKd : ℚ) : RespBody
  | text (s : String) : RespBody
deriving DecidableEq

/-- An outbound responseToken: transactionID plus body. -/
structure RespToken where
  transactionID : String
  body : RespBody
deriving DecidableEq

/-- The connected client socket, modelled as the list of response tokens
written to it. -/
structure ClientConn where
  writes : List RespToken := []
deriving DecidableEq

/-- The intervals registry: stream name to stored timer handle.  A stored
handle may be stale (its timer already cancelled). -/
structure Intervals where
  mag : Option Nat := none
  piTemp : Option Nat := none
  depthLock : Option Nat := none
deriving DecidableEq

/-- The whole mutable module state of the server script: the session
reference, depth-lock state, retained DOF values, PID gains, the intervals
registry, the set of timers currently firing and a fresh-handle counter. -/
structure SysState where
  client : Option ClientConn := none
  depthLockToggle : Bool := false
  targetPressure : ℚ := 0
  oldDOFValues : DOFState := ⟨0, 0, 0, 0, 0, 0, 0, 0⟩
  zKp : ℚ := 1
  zKi : ℚ := 1
  zKd : ℚ := 0
  intervals : Intervals := {}
  live : List Nat := []
  nextId : Nat := 0
deriving DecidableEq

/-- The initial module state of the script. -/
def initState : SysState := {}

/-- sendToken(token): logger.d(...); client.write(token.stringify()).
With no session connected the write on the null reference raises a
TypeError; the Bool result records whether the call threw. -/
def sendToken (client : Option ClientConn) (tok : RespToken) : Option ClientConn × Bool :=
  match client with
  | none => (none, true)
  | some c => (some ⟨c.writes ++ [tok]⟩, false)

/-- clearInterval(handle): cancels the timer if the handle is a live one;
clearInterval(undefined) is a no-op. -/
def clearTimer (live : List Nat) (h : Option Nat) : List Nat :=
  match h with
  | some i => live.erase i
  | none => live

/-! ## setMotors, setMotor and the depth-lock loop -/

/-- The observable output of one setMotors call: the PWM channel writes
performed, the motorValues response body, and whether the trailing
sendToken threw. -/
structure MotorsOut where
  writes : List (Nat × ℚ)
  body : MotorValuesBody
  threw : Bool
deriving DecidableEq

/-- setMotors(data, fromController = false), src/unnamed/part_000 lines
288-329.  The vector group runs when FB, turn or strafe is present; the
pitch/depth group runs when pitch is present or when depth is present and
the command is controller-sourced while depth lock is off; inside the
depth group the write to the second channel (B) is skipped while depth
lock is on.  The response is sent before Object.assign updates the
retained DOF values, so a throwing send skips the assign. -/
def setMotors (s : SysState) (u : DOFUpdate) (fromController : Bool) (tid : String) :
    SysState × MotorsOut :=
  let old := s.oldDOFValues
  let vectorVals : Option (List ℚ) :=
    if u.FB.isSome || u.turn.isSome || u.strafe.isSome then
      some
        (calcMotorValues [u.FB.getD old.FB, u.turn.getD old.turn, u.strafe.getD old.strafe]
          vectorMapMatrix 400 1550)
    else none
  let depthVals : Option (List ℚ) :=
    if u.pitch.isSome || (u.depth.isSome && !s.depthLockToggle && fromController) then
      some (calcMotorValues [u.pitch.getD old.pitch, u.depth.getD old.depth] depthMapMatrix 400 1550)
    else none
  let manipVal : Option ℚ := u.manip.map (fun x => calcMotorValue x 400 1550)
  let picamVal : Option ℚ := u.picam.map (fun x => calcMotorValue x 400 1550)
  let levelerVal : Option ℚ := u.leveler.map (fun x => calcMotorValue x 500 1550)
  let vectorWrites : List (Nat × ℚ) :=
    match vectorVals with
    | some vs => motorChannelGroups_vector.zip vs
    | none => []
  let depthWrites : List (Nat × ℚ) :=
    match depthVals with
    | some vs =>
        vs.enum.filterMap (fun p =>
          if s.depthLockToggle && p.1 == 1 then none
          else some (motorChannelGroups_depth.getD p.1 0, p.2))
    | none => []
  let singleWrites : List (Nat × ℚ) :=
    (match manipVal with | some v => [(motorChannels_manip, v)] | none => []) ++
    (match picamVal with | some v => [(motorChannels_picam, v)] | none => []) ++
    (match levelerVal with | some v => [(motorChannels_leveler, v)] | none => [])
  let body : MotorValuesBody :=
    { vector := vectorVals
      depth := depthVals.map (fun vs => vs.map (fun _ => (none : Option ℚ)))
      manip := manipVal
      picam := picamVal
      leveler := levelerVal }
  let send := sendToken s.client { transactionID := tid, body := RespBody.motors body }
  let newOld := if send.2 then old else mergeDOF old u
  ({ s with client := send.1, oldDOFValues := newOld },
   { writes := vectorWrites ++ depthWrites ++ singleWrites, body := body, threw := send.2 })

/-- setMotor(data): wraps the body in a synthetic token whose transactionID
is responseTypes.MOTORDATA and calls setMotors without the controller flag. -/
def setMotor (s : SysState) (u : DOFUpdate) : SysState × MotorsOut :=
  setMotors s u false responseTypes_MOTORDATA

/-- depthLoop(), src/unnamed/part_000 lines 474-483: reads the current
pressure (passed as a parameter), clamps the error divided by 30 to
[-1, 1], and issues the negated correction on the depth axis through
setMotor.  The returned rational is the dofValue it computed. -/
def depthLoop (s : SysState) (currentPressure : ℚ) : (SysState × MotorsOut) × ℚ :=
  let error := s.targetPressure - currentPressure
  let dofValue := min (max (-1) (error / 30)) 1
  (setMotor s { depth := some (-dofValue) }, dofValue)

/-! ## Streaming scheduler: mag and piTemp streams, depth lock toggle -/

/-- startMagStream(data), lines 250-266: clearInterval(intervals[mag])
first, then register a fresh timer under the mag name and acknowledge. -/
def startMagStream (s : SysState) (tid : String) : SysState :=
  let live1 := clearTimer s.live s.intervals.mag
  let s1 : SysState :=
    { s with
      live := live1 ++ [s.nextId]
      nextId := s.nextId + 1
      intervals := { s.intervals with mag := some s.nextId } }
  { s1 with client := (sendToken s1.client { transactionID := tid, body := RespBody.empty }).1 }

/-- startPiTempStream(data), lines 427-434: registers a fresh timer under
the piTemp name WITHOUT clearing any existing one, then acknowledges. -/
def startPiTempStream (s : SysState) (tid : String) : SysState :=
  let s1 : SysState :=
    { s with
      live := s.live ++ [s.nextId]
      nextId := s.nextId + 1
      intervals := { s.intervals with piTemp := some s.nextId } }
  { s1 with client := (sendToken s1.client { transactionID := tid, body := RespBody.empty }).1 }

/-- setDepthLock(data), lines 449-467: always clears the depthLock timer
first; a falsy body only drops the toggle and returns without responding;
a truthy body captures the target pressure, registers the 100 ms loop and
acknowledges. -/
def setDepthLock (s : SysState) (body : Bool) (tid : String) (pressure : ℚ) : SysState :=
  let s1 : SysState := { s with live := clearTimer s.live s.intervals.depthLock }
  if !body then
    { s1 with depthLockToggle := false }
  else
    let s2 : SysState :=
      { s1 with
        depthLockToggle := true
        targetPressure := pressure
        intervals := { s1.intervals with depthLock := some s1.nextId }
        live := s1.live ++ [s1.nextId]
        nextId := s1.nextId + 1 }
    { s2 with client := (sendToken s2.client { transactionID := tid, body := RespBody.empty }).1 }

/-- onClientDisconnect(), lines 169-173: every stored interval handle is
cleared and the session reference is nulled. -/
def onClientDisconnect (s : SysState) : SysState :=
  { s with
    live :=
      clearTimer (clearTimer (clearTimer s.live s.intervals.mag) s.intervals.piTemp)
        s.intervals.depthLock
    client := none }

/-! ## PID tuning -/

/-- The body of a PIDTUNE token. -/
structure PidTuneBody where
  zKp : Option ℚ := none
  zKi : Option ℚ := none
  zKd : Option ℚ := none
deriving DecidableEq

/-- The own properties of a parsed botProtocol token object: type, headers
and body.  tunePIDLoop tests hasOwnProperty on the token itself, so these
are the only keys it can ever find. -/
def tokenOwnKeys : List String := ["type", "headers", "body"]

/-- tunePIDLoop(data), lines 498-508.  Each guard is
data.hasOwnProperty(key) on the token object, not on data.body, so for a
protocol-shaped token it never fires; the response reports the stored
gains. -/
def tunePIDLoop (s : SysState) (body : PidTuneBody) (tid : String) : SysState :=
  let zKp1 := if tokenOwnKeys.contains "zKp" then body.zKp.getD s.zKp else s.zKp
  let zKi1 := if tokenOwnKeys.contains "zKi" then body.zKi.getD s.zKi else s.zKi
  let zKd1 := if tokenOwnKeys.contains "zKd" then body.zKd.getD s.zKd else s.zKd
  let s1 : SysState := { s with zKp := zKp1, zKi := zKi1, zKd := zKd1 }
  { s1 with
    client :=
      (sendToken s1.client
        { transactionID := tid, body := RespBody.gains s1.zKp s1.zKi s1.zKd }).1 }

/-! ## Frame decoder and dispatcher -/

/-- A decoded command token as far as dispatch is concerned. -/
structure Token where
  type : String
  transactionID : String
deriving DecidableEq

/-- One step of the replace pass of onClientData: after seeing prev, a
closing brace immediately followed by an opening brace gets a separator
inserted between them, scanning left to right without overlap. -/
def insertSepAux : Char → List Char → List Char
  | _, [] => []
  | prev, c :: rest =>
      if prev == '}' && c == '{' then '|' :: c :: insertSepAux c rest
      else c :: insertSepAux c rest

/-- data.toString().replace with the global back-to-back object pattern. -/
def insertSep : List Char → List Char
  | [] => []
  | c :: rest => c :: insertSepAux c rest

/-- The frame split of onClientData: insert separators at object
boundaries and split on the separator character. -/
def splitChunk (chunk : String) : List String :=
  ((insertSep chunk.data).splitOn '|').map (fun l => String.mk l)

/-- Handling of a single split-out text, lines 157-165: JSON.parse in a
try/catch.  On success the token is emitted under its type and dispatched
iff a handler is registered for that type; on failure the sentinel is
emitted under an undefined event name, which no registered handler
matches, so nothing is dispatched and no response is produced. -/
def dispatchStep (parse : String → Option Token) (registered : List String)
    (text : String) : Option Token :=
  match parse text with
  | none => none
  | some tok => if tok.type ∈ registered then some tok else none

/-- The forEach over the split texts: every text is processed, each
through its own try/catch. -/
def processTexts (parse : String → Option Token) (registered : List String)
    (texts : List String) : List Token :=
  texts.filterMap (dispatchStep parse registered)

/-- onClientData(data), lines 155-167: split the chunk, then decode and
dispatch each text independently. -/
def onClientData (parse : String → Option Token) (registered : List String)
    (chunk : String) : List Token :=
  processTexts parse registered (splitChunk chunk)

/-! ## Claim theorems about the stateful handlers -/

/-- Fixture state for the depth-lock cycle: lock engaged at target
pressure 1000 with a connected session and the depthLock timer live. -/
def c3State : SysState :=
  { initState with
    client := some ⟨[]⟩
    depthLockToggle := true
    targetPressure := 1000
    intervals := { depthLock := some 0 }
    live := [0]
    nextId := 1 }

/-- C3: evaluating the depth-lock correction cycle at targetPressure 1000
and currentPressure 970.  The cycle computes dofValue 1 and issues the
override with depth axis -1 as the claim says, but the depth-group guard
in setMotors requires a controller-sourced command with the lock off, so
the mixing engine is never invoked for the depth group: the motorValues
body is empty, no PWM channel is written, and only the MOTORDATA-tagged
response (with an empty body) goes out. -/
theorem c3_depth_lock_cycle :
    (depthLoop c3State 970).2 = 1 ∧
    (depthLoop c3State 970).1.2.body = ⟨none, none, none, none, none⟩ ∧
    (depthLoop c3State 970).1.2.writes = [] ∧
    (depthLoop c3State 970).1.1.oldDOFValues.depth = -1 ∧
    (depthLoop c3State 970).1.1.client =
      some ⟨[⟨responseTypes_MOTORDATA, RespBody.motors ⟨none, none, none, none, none⟩⟩]⟩ := by
  have hdof : min (max (-1 : ℚ) (((1000 : ℚ) - 970) / 30)) 1 = 1 := by norm_num
  refine ⟨?_, ?_, ?_, ?_, ?_⟩ <;>
    simp [depthLoop, setMotor, setMotors, sendToken, mergeDOF, c3State, initState, hdof]

/-- C4 counterexample: two consecutive startPiTempStream calls.  The first
registers timer 0; the second registers timer 1 and overwrites the
registry entry, but timer 0 is still live, so the name piTemp now has two
firing timers and the existing one was never cancelled. -/
theorem c4_piTemp_restart_keeps_old_timer :
    (startPiTempStream { initState with client := some ⟨[]⟩ } "t1").intervals.piTemp = some 0 ∧
    (startPiTempStream (startPiTempStream { initState with client := some ⟨[]⟩ } "t1")
        "t2").intervals.piTemp = some 1 ∧
    (startPiTempStream (startPiTempStream { initState with client := some ⟨[]⟩ } "t1")
        "t2").live = [0, 1] := by
  refine ⟨rfl, rfl, rfl⟩

/-- C4 amended: starting the mag stream first cancels the existing mag
timer, so at most one mag timer is live; starting the piTemp stream does
not cancel the existing piTemp timer, it only replaces the stored handle,
leaving the old timer firing. -/
theorem c4_stream_restart_cancellation (s : SysState) (tid : String)
    (hnd : s.live.Nodup) (hb : ∀ j ∈ s.live, j < s.nextId) :
    (∀ i, s.intervals.mag = some i → i < s.nextId → i ∉ (startMagStream s tid).live) ∧
    (∀ i, s.intervals.piTemp = some i → i ∈ s.live →
       i ∈ (startPiTempStream s tid).live ∧
         (startPiTempStream s tid).intervals.piTemp ≠ some i) := by
  constructor
  · intro i hm hlt
    have hlive : (startMagStream s tid).live = clearTimer s.live s.intervals.mag ++ [s.nextId] :=
      rfl
    rw [hlive, hm]
    simp only [clearTimer, List.mem_append, List.mem_singleton]
    rintro (h1 | h2)
    · exact (List.Nodup.mem_erase_iff hnd).mp h1 |>.1 rfl
    · exact absurd h2 (Nat.ne_of_lt hlt)
  · intro i hp hl
    have hlive : (startPiTempStream s tid).live = s.live ++ [s.nextId] := rfl
    have hreg : (startPiTempStream s tid).intervals.piTemp = some s.nextId := rfl
    refine ⟨?_, ?_⟩
    · rw [hlive]
      exact List.mem_append_left _ hl
    · rw [hreg]
      intro hEq
      have h2 : s.nextId = i := Option.some.inj hEq
      exact absurd (hb i hl) (by rw [h2]; exact lt_irrefl i)

/-- Fixture state for the stream-restart witness: timers 0 and 1 live,
registered under mag and piTemp respectively. -/
def c4State : SysState :=
  { initState with live := [0, 1], nextId := 2, intervals := { mag := some 0, piTemp := some 1 } }

/-- C4 witness: on the fixture state, restarting the mag stream kills
timer 0, while restarting the piTemp stream leaves timer 1 alive under a
new registration. -/
theorem c4_stream_restart_cancellation_witness :
    0 ∉ (startMagStream c4State "t").live ∧
      (1 ∈ (startPiTempStream c4State "t").live ∧
        (startPiTempStream c4State "t").intervals.piTemp ≠ some 1) := by
  have h := c4_stream_restart_cancellation c4State "t" (by decide) (by decide)
  exact ⟨h.1 0 rfl (by decide), h.2 1 rfl (by decide)⟩

/-- C5: keys absent from an incoming DOF update keep their retained value;
a partial update with only turn mixes the vector group from the retained
FB and strafe together with the new turn; and the depth-lock override of
the depth axis rewrites only the depth field of the retained state, with
the fresh override value. -/
theorem c5_partial_update_retention (s : SysState) (u : DOFUpdate) (fc : Bool) (tid : String)
    (t v : ℚ) (c : ClientConn) :
    ((u.FB = none → (setMotors s u fc tid).1.oldDOFValues.FB = s.oldDOFValues.FB) ∧
     (u.turn = none → (setMotors s u fc tid).1.oldDOFValues.turn = s.oldDOFValues.turn) ∧
     (u.strafe = none → (setMotors s u fc tid).1.oldDOFValues.strafe = s.oldDOFValues.strafe) ∧
     (u.pitch = none → (setMotors s u fc tid).1.oldDOFValues.pitch = s.oldDOFValues.pitch) ∧
     (u.depth = none → (setMotors s u fc tid).1.oldDOFValues.depth = s.oldDOFValues.depth) ∧
     (u.manip = none → (setMotors s u fc tid).1.oldDOFValues.manip = s.oldDOFValues.manip) ∧
     (u.leveler = none → (setMotors s u fc tid).1.oldDOFValues.leveler = s.oldDOFValues.leveler) ∧
     (u.picam = none → (setMotors s u fc tid).1.oldDOFValues.picam = s.oldDOFValues.picam)) ∧
    (setMotors s { turn := some t } fc tid).2.body.vector =
      some (calcMotorValues [s.oldDOFValues.FB, t, s.oldDOFValues.strafe]
        vectorMapMatrix 400 1550) ∧
    (setMotor { s with client := some c } { depth := some v }).1.oldDOFValues =
      { s.oldDOFValues with depth := v } := by
  obtain ⟨cl, tog, tp, dofs, kp, ki, kd, ivs, lv, nid⟩ := s
  obtain ⟨fb, tn, st, pt, dp, mp, lvl, pc⟩ := dofs
  refine ⟨⟨?_, ?_, ?_, ?_, ?_, ?_, ?_, ?_⟩, ?_, ?_⟩ <;>
    cases cl <;>
      first
        | (intro h; simp [setMotors, sendToken, mergeDOF, h])
        | simp [setMotor, setMotors, sendToken, mergeDOF]

/-- Fixture retained-state for the C5 witness. -/
def c5State : SysState :=
  { initState with client := some ⟨[]⟩, oldDOFValues := ⟨1, 2, 3, 4, 5, 6, 7, 8⟩ }

/-- C5 witness: on a concrete retained state, the partial update with only
turn keeps FB and strafe, mixes [1, 1/2, 3], and the depth-lock override
with value 9 rewrites only the depth field. -/
theorem c5_partial_update_retention_witness :
    (setMotors c5State { turn := some (1 / 2) } true "t").1.oldDOFValues.FB = 1 ∧
    (setMotors c5State { turn := some (1 / 2) } true "t").1.oldDOFValues.strafe = 3 ∧
    (setMotors c5State { turn := some (1 / 2) } true "t").2.body.vector =
      some (calcMotorValues [1, 1 / 2, 3] vectorMapMatrix 400 1550) ∧
    (setMotor { c5State with client := some ⟨[]⟩ } { depth := some 9 }).1.oldDOFValues =
      ⟨1, 2, 3, 4, 9, 6, 7, 8⟩ := by
  have h := c5_partial_update_retention c5State { turn := some (1 / 2) } true "t" (1 / 2) 9 ⟨[]⟩
  refine ⟨h.1.1 rfl, h.1.2.2.1 rfl, ?_, ?_⟩
  · have h2 := h.2.1
    simpa [c5State, initState] using h2
  · have h3 := h.2.2
    simpa [c5State, initState] using h3

/-- C6: a text that fails to parse is isolated: removing it from the
split chunk does not change what is dispatched, it itself dispatches no
command and produces no response, and every well-formed sibling with a
registered type is still dispatched. -/
theorem c6_parse_failure_isolated (parse : String → Option Token) (registered : List String)
    (chunk : String) (pre post : List String) (bad : String)
    (hsplit : splitChunk chunk = pre ++ bad :: post) (hbad : parse bad = none) :
    onClientData parse registered chunk = processTexts parse registered (pre ++ post) ∧
    (∀ tok good, good ∈ pre ++ post → parse good = some tok → tok.type ∈ registered →
      tok ∈ onClientData parse registered chunk) := by
  have hstep : dispatchStep parse registered bad = none := by simp [dispatchStep, hbad]
  have hmain : onClientData parse registered chunk = processTexts parse registered (pre ++ post) := by
    rw [onClientData, hsplit]
    unfold processTexts
    rw [List.filterMap_append, List.filterMap_append, List.filterMap_cons_none hstep]
  refine ⟨hmain, ?_⟩
  intro tok good hg hp hr
  rw [hmain]
  unfold processTexts
  exact List.mem_filterMap.mpr ⟨good, hg, by simp [dispatchStep, hp, hr]⟩

/-- C6 witness: the chunk holding a malformed object text followed by a
well-formed one dispatches exactly the well-formed token. -/
theorem c6_parse_failure_isolated_witness :
    onClientData
        (fun s => if s = "\x7bB\x7d" then some (Token.mk "ECHO" "tid1") else none)
        ["ECHO"] "\x7bA\x7d\x7bB\x7d" = [Token.mk "ECHO" "tid1"] ∧
      Token.mk "ECHO" "tid1" ∈
        onClientData (fun s => if s = "\x7bB\x7d" then some (Token.mk "ECHO" "tid1") else none)
          ["ECHO"] "\x7bA\x7d\x7bB\x7d" := by
  have h := c6_parse_failure_isolated
    (fun s => if s = "\x7bB\x7d" then some (Token.mk "ECHO" "tid1") else none)
    ["ECHO"] "\x7bA\x7d\x7bB\x7d" [] ["\x7bB\x7d"] "\x7bA\x7d" (by decide) (by decide)
  exact ⟨h.1.trans (by decide),
    h.2 (Token.mk "ECHO" "tid1") "\x7bB\x7d" (by decide) (by decide) (by decide)⟩

/-- C7 counterexample: a PIDTUNE token whose body carries zKp = 2 leaves
the stored zKp at 1: the handler guards on hasOwnProperty of the token
object, whose only own keys are type, headers and body. -/
theorem c7_tune_leaves_gain_unchanged :
    (tunePIDLoop { initState with client := some ⟨[]⟩ } ⟨some 2, none, none⟩ "t").zKp = 1 ∧
      ¬ ((tunePIDLoop { initState with client := some ⟨[]⟩ } ⟨some 2, none, none⟩ "t").zKp = 2) := by
  have h1 : (tunePIDLoop { initState with client := some ⟨[]⟩ } ⟨some 2, none, none⟩ "t").zKp = 1 :=
    rfl
  exact ⟨h1, by rw [h1]; norm_num⟩

/-- C7 amended: the tune handler never changes any stored gain and its
response reports the (unchanged) stored gains, and the depth-lock cycle
uses none of the stored gains: its outputs and its correction value are
invariant under any change of zKp, zKi and zKd. -/
theorem c7_gains_inert (s : SysState) (b : PidTuneBody) (tid : String) (a bq cq p : ℚ) :
    (tunePIDLoop s b tid).zKp = s.zKp ∧
    (tunePIDLoop s b tid).zKi = s.zKi ∧
    (tunePIDLoop s b tid).zKd = s.zKd ∧
    (tunePIDLoop s b tid).client =
      (sendToken s.client { transactionID := tid, body := RespBody.gains s.zKp s.zKi s.zKd }).1 ∧
    (depthLoop { s with zKp := a, zKi := bq, zKd := cq } p).1.2 = (depthLoop s p).1.2 ∧
    (depthLoop { s with zKp := a, zKi := bq, zKd := cq } p).2 = (depthLoop s p).2 :=
  ⟨rfl, rfl, rfl, rfl, rfl, rfl⟩

/-- C8: the wider leveler half-range is dropped.  calcMotorValue ignores
its diff and mid parameters, so the leveler input 1, requested with diff
500, still produces 1550 + 400 = 1950 rather than 2050, both directly and
through the leveler branch of setMotors. -/
theorem c8_leveler_diff_ignored :
    calcMotorValue 1 500 1550 = 1950 ∧
    ¬ (calcMotorValue 1 500 1550 = 2050) ∧
    (setMotors { initState with client := some ⟨[]⟩ } { leveler := some 1 } true "t").2.body.leveler =
      some 1950 := by
  have h : calcMotorValue 1 500 1550 = 1950 := by
    norm_num [calcMotorValue, calcMotorValues, rawValues, rowDot, maxAbsScale]
  refine ⟨h, by rw [h]; norm_num, ?_⟩
  simp [setMotors, h]

/-- C9 counterexample: sending a response with no session connected does
not log-and-drop; the write on the null session reference throws, and
nothing is delivered. -/
theorem c9_send_without_session_throws :
    (sendToken none ⟨"t1", RespBody.empty⟩).2 = true ∧
      (sendToken none ⟨"t1", RespBody.empty⟩).1 = none :=
  ⟨rfl, rfl⟩

/-- C9 amended: with no stored session (in particular right after
onClientDisconnect nulls the reference) sendToken raises a TypeError on
the null reference and the response is not delivered; there is no
log-and-drop guard. -/
theorem c9_send_without_session (t : RespToken) (s : SysState) :
    (sendToken none t).2 = true ∧
    (sendToken none t).1 = none ∧
    (onClientDisconnect s).client = none ∧
    (sendToken (onClientDisconnect s).client t).2 = true :=
  ⟨rfl, rfl, rfl, rfl⟩

/-- C10: a set-depth-lock command with falsy body clears the depthLock
timer and drops the toggle but writes nothing back to the session (no
acknowledgement at all), while the truthy path does send one. -/
theorem c10_disable_sends_no_ack (s : SysState) (tid : String) (p : ℚ) :
    (setDepthLock s false tid p).depthLockToggle = false ∧
    (setDepthLock s false tid p).live = clearTimer s.live s.intervals.depthLock ∧
    (setDepthLock s false tid p).client = s.client ∧
    (setDepthLock s true tid p).client =
      (sendToken s.client { transactionID := tid, body := RespBody.empty }).1 :=
  ⟨rfl, rfl, rfl, rfl⟩

end Remote
